import Mathlib

/-!
Verification of the safe Syphon wrapper layer (src/safe.rs of rusty-syphon).

The safe layer wraps an opaque, reference-counted native framework behind
FFI calls. We embed it shallowly:

- a raw pointer is a natural number, with 0 encoding null;
- every `#[cfg(target_os = "macos")]` split becomes an explicit `macos : Bool`
  parameter, mirroring the two compiled branches of each function;
- the native side is a pure oracle `NativeEnv` giving the return value of
  each foreign function, and every safe-layer operation additionally returns
  the list of native calls it performed (`List NCall`), so that statements
  such as "no native call is attempted" are expressible;
- Rust `&str` names are lists of bytes (so interior NUL is representable);
  `CString::new` failure is modelled by `cStringNew`;
- `f64` arguments are pass-through values the layer never computes with,
  modelled by the uninterpreted wrapper `F64`.

Descriptor reference counting, handle lifetimes and the callback teardown
order are modelled as event traces in later sections.
-/

namespace RustySyphon

/-- A raw native pointer; 0 encodes the null pointer. -/
abbrev Ptr := Nat

/-- An f64 argument. The layer only passes these through to native calls,
so the payload is uninterpreted. -/
structure F64 where
  bits : Nat
deriving DecidableEq

/-- Bytes of a Rust string slice (UTF-8 bytes; may contain 0). -/
abbrev RStr := List Nat

/-- Embedding of `CString::new(s).ok()`: fails exactly when the byte string
contains an interior NUL byte. -/
def cStringNew (s : RStr) : Option RStr :=
  if 0 ∈ s then none else some s

/-- The name pointer computed by both server constructors from an optional
name: `name.map(|s| CString::new(s).ok()).flatten()`, with `none` standing
for the null pointer passed via `unwrap_or(null)`. -/
def namePtrOf (name : Option RStr) : Option RStr :=
  name.bind cStringNew

/-- One native (FFI) call performed by the safe layer, with its arguments. -/
inductive NCall
  | serverDirectoryShared
  | serverDirectoryServersCount (dir : Ptr)
  | serverDirectoryServerAtIndex (dir : Ptr) (index : Nat)
  | serverDescriptionCopyUuid (desc : Ptr)
  | serverDescriptionCopyName (desc : Ptr)
  | serverDescriptionCopyAppName (desc : Ptr)
  | serverDescriptionRetain (desc : Ptr)
  | serverDescriptionRelease (desc : Ptr)
  | openglServerCreate (namePtr : Option RStr) (context : Ptr)
  | openglServerHasClients (server : Ptr)
  | openglServerServerDescription (server : Ptr)
  | openglServerPublishFrame (server : Ptr) (texId : Nat) (target : Nat)
      (x y w h texW texH : F64) (flipped : Bool)
  | openglServerBindToDrawFrame (server : Ptr) (w h : F64)
  | openglServerUnbindAndPublish (server : Ptr)
  | openglServerStop (server : Ptr)
  | openglServerRelease (server : Ptr)
  | openglClientCreate (desc : Ptr) (context : Ptr) (hasCallback : Bool)
  | openglClientIsValid (client : Ptr)
  | openglClientHasNewFrame (client : Ptr)
  | openglClientNewFrameImage (client : Ptr)
  | openglClientStop (client : Ptr)
  | openglClientRelease (client : Ptr)
  | metalServerCreate (namePtr : Option RStr) (device : Ptr)
  | metalServerHasClients (server : Ptr)
  | metalServerServerDescription (server : Ptr)
  | metalServerPublishFrame (server : Ptr) (texture : Ptr)
      (commandBuffer : Ptr) (x y w h : F64) (flipped : Bool)
  | metalServerNewFrameImage (server : Ptr)
  | metalServerStop (server : Ptr)
  | metalServerRelease (server : Ptr)
  | metalClientCreate (desc : Ptr) (device : Ptr) (hasCallback : Bool)
  | metalClientIsValid (client : Ptr)
  | metalClientHasNewFrame (client : Ptr)
  | metalClientNewFrameImage (client : Ptr)
  | metalClientStop (client : Ptr)
  | metalClientRelease (client : Ptr)
deriving DecidableEq

/-- Pure oracle for the values returned by the native side. Each field gives
the return value of the correspondingly named foreign function; a returned
`Ptr` of 0 is a null result, and the string copies return `none` for a null
`char` pointer. -/
structure NativeEnv where
  serverDirectoryShared : Ptr
  serverDirectoryServersCount : Ptr → Nat
  serverDirectoryServerAtIndex : Ptr → Nat → Ptr
  serverDescriptionCopyUuid : Ptr → Option String
  serverDescriptionCopyName : Ptr → Option String
  serverDescriptionCopyAppName : Ptr → Option String
  openglServerCreate : Option RStr → Ptr → Ptr
  openglServerHasClients : Ptr → Bool
  openglServerServerDescription : Ptr → Ptr
  openglServerBindToDrawFrame : Ptr → F64 → F64 → Bool
  openglClientCreate : Ptr → Ptr → Bool → Ptr
  openglClientIsValid : Ptr → Bool
  openglClientHasNewFrame : Ptr → Bool
  openglClientNewFrameImage : Ptr → Ptr
  metalServerCreate : Option RStr → Ptr → Ptr
  metalServerHasClients : Ptr → Bool
  metalServerServerDescription : Ptr → Ptr
  metalServerNewFrameImage : Ptr → Ptr
  metalClientCreate : Ptr → Ptr → Bool → Ptr
  metalClientIsValid : Ptr → Bool
  metalClientHasNewFrame : Ptr → Bool
  metalClientNewFrameImage : Ptr → Ptr

/-- `ServerDirectory`: wraps the non-null shared-directory handle. -/
structure ServerDirectory where
  ptr : Ptr
deriving DecidableEq

/-- `ServerDescription`: wraps a non-null descriptor handle; `owned` records
whether this wrapper holds a retain it must release on drop. -/
structure ServerDescription where
  ptr : Ptr
  owned : Bool
deriving DecidableEq

/-- `OpenGLServer`: wraps a non-null native server handle. -/
structure OpenGLServer where
  ptr : Ptr
deriving DecidableEq

/-- `OpenGLClient`: wraps a non-null native client handle; `hasCallbackStorage`
records whether the boxed callback holder is present. -/
structure OpenGLClient where
  ptr : Ptr
  hasCallbackStorage : Bool
deriving DecidableEq

/-- `OpenGLImage`: wraps a non-null native frame-image handle. -/
structure OpenGLImage where
  ptr : Ptr
deriving DecidableEq

/-- `MetalServer`: wraps a non-null native server handle. -/
structure MetalServer where
  ptr : Ptr
deriving DecidableEq

/-- `MetalClient`: wraps a non-null native client handle; `hasCallbackStorage`
records whether the boxed callback holder is present. -/
structure MetalClient where
  ptr : Ptr
  hasCallbackStorage : Bool
deriving DecidableEq

/-- `MetalTexture`: wraps a non-null native texture handle. -/
structure MetalTexture where
  ptr : Ptr
deriving DecidableEq

/-- `NonNull::new(p).map f`: some wrapped value when `p` is non-null. -/
def nonNullMap {α : Type} (p : Ptr) (f : Ptr → α) : Option α :=
  if p = 0 then none else some (f p)

/-- `ServerDirectory::shared`. On macOS, calls the native shared-directory
accessor and wraps a non-null result; elsewhere, returns `none` with no
native call. -/
def ServerDirectory.shared (macos : Bool) (env : NativeEnv) :
    Option ServerDirectory × List NCall :=
  if macos then
    let p := env.serverDirectoryShared
    (nonNullMap p (fun q => ⟨q⟩), [NCall.serverDirectoryShared])
  else
    (none, [])

/-- `ServerDirectory::servers_count`. -/
def ServerDirectory.servers_count (macos : Bool) (env : NativeEnv)
    (self : ServerDirectory) : Nat × List NCall :=
  if macos then
    (env.serverDirectoryServersCount self.ptr,
     [NCall.serverDirectoryServersCount self.ptr])
  else
    (0, [])

/-- `ServerDirectory::server_at_index`: wraps a non-null result as a
borrowed (`owned := false`) description. -/
def ServerDirectory.server_at_index (macos : Bool) (env : NativeEnv)
    (self : ServerDirectory) (index : Nat) :
    Option ServerDescription × List NCall :=
  if macos then
    let p := env.serverDirectoryServerAtIndex self.ptr index
    (nonNullMap p (fun q => ⟨q, false⟩),
     [NCall.serverDirectoryServerAtIndex self.ptr index])
  else
    (none, [])

/-- `ServerDirectory::servers`: reads the count once, then
`(0..n).filter_map(|i| self.server_at_index(i)).collect()`. -/
def ServerDirectory.servers (macos : Bool) (env : NativeEnv)
    (self : ServerDirectory) : List ServerDescription × List NCall :=
  let nt := self.servers_count macos env
  let queries := (List.range nt.1).map
    (fun i => self.server_at_index macos env i)
  (queries.filterMap Prod.fst, nt.2 ++ (queries.map Prod.snd).flatten)

/-- `ServerDescription::uuid`. -/
def ServerDescription.uuid (macos : Bool) (env : NativeEnv)
    (self : ServerDescription) : Option String × List NCall :=
  if macos then
    (env.serverDescriptionCopyUuid self.ptr,
     [NCall.serverDescriptionCopyUuid self.ptr])
  else
    (none, [])

/-- `ServerDescription::name`. -/
def ServerDescription.name (macos : Bool) (env : NativeEnv)
    (self : ServerDescription) : Option String × List NCall :=
  if macos then
    (env.serverDescriptionCopyName self.ptr,
     [NCall.serverDescriptionCopyName self.ptr])
  else
    (none, [])

/-- `ServerDescription::app_name`. -/
def ServerDescription.app_name (macos : Bool) (env : NativeEnv)
    (self : ServerDescription) : Option String × List NCall :=
  if macos then
    (env.serverDescriptionCopyAppName self.ptr,
     [NCall.serverDescriptionCopyAppName self.ptr])
  else
    (none, [])

/-- `ServerDescription::retain`: one native retain call by `&self`; the
wrapper state (in particular `owned`) is unchanged. -/
def ServerDescription.retain (macos : Bool) (self : ServerDescription) :
    List NCall :=
  if macos then [NCall.serverDescriptionRetain self.ptr] else []

/-- `ServerDescription::release`: one native release call by `&self`; the
wrapper is not consumed and `owned` is unchanged. -/
def ServerDescription.release (macos : Bool) (self : ServerDescription) :
    List NCall :=
  if macos then [NCall.serverDescriptionRelease self.ptr] else []

/-- `Clone for ServerDescription`: retain, then produce a wrapper on the
same pointer with `owned := true`. Returns the clone and the native calls. -/
def ServerDescription.clone (macos : Bool) (self : ServerDescription) :
    ServerDescription × List NCall :=
  (⟨self.ptr, true⟩, self.retain macos)

/-- `Drop for ServerDescription`: release exactly when `owned`. -/
def ServerDescription.drop (macos : Bool) (self : ServerDescription) :
    List NCall :=
  if macos then
    if self.owned then [NCall.serverDescriptionRelease self.ptr] else []
  else []

/-- `OpenGLServer::new`: builds the name pointer (null on absent name or on
`CString::new` failure), calls native creation with the given context —
there is no null check on the context — and wraps a non-null result. -/
def OpenGLServer.new (macos : Bool) (env : NativeEnv)
    (name : Option RStr) (context : Ptr) :
    Option OpenGLServer × List NCall :=
  if macos then
    let namePtr := namePtrOf name
    let p := env.openglServerCreate namePtr context
    (nonNullMap p (fun q => ⟨q⟩), [NCall.openglServerCreate namePtr context])
  else
    (none, [])

/-- `OpenGLServer::has_clients`. -/
def OpenGLServer.has_clients (macos : Bool) (env : NativeEnv)
    (self : OpenGLServer) : Bool × List NCall :=
  if macos then
    (env.openglServerHasClients self.ptr,
     [NCall.openglServerHasClients self.ptr])
  else
    (false, [])

/-- `OpenGLServer::server_description`: wraps a non-null result as an owned
(`owned := true`) description. -/
def OpenGLServer.server_description (macos : Bool) (env : NativeEnv)
    (self : OpenGLServer) : Option ServerDescription × List NCall :=
  if macos then
    let p := env.openglServerServerDescription self.ptr
    (nonNullMap p (fun q => ⟨q, true⟩),
     [NCall.openglServerServerDescription self.ptr])
  else
    (none, [])

/-- `OpenGLServer::publish_frame`: unconditional native publish call. -/
def OpenGLServer.publish_frame (macos : Bool) (self : OpenGLServer)
    (texId : Nat) (target : Nat) (x y w h texW texH : F64)
    (flipped : Bool) : List NCall :=
  if macos then
    [NCall.openglServerPublishFrame self.ptr texId target x y w h
      texW texH flipped]
  else []

/-- `OpenGLServer::bind_to_draw_frame`. -/
def OpenGLServer.bind_to_draw_frame (macos : Bool) (env : NativeEnv)
    (self : OpenGLServer) (w h : F64) : Bool × List NCall :=
  if macos then
    (env.openglServerBindToDrawFrame self.ptr w h,
     [NCall.openglServerBindToDrawFrame self.ptr w h])
  else
    (false, [])

/-- `OpenGLServer::unbind_and_publish`. -/
def OpenGLServer.unbind_and_publish (macos : Bool) (self : OpenGLServer) :
    List NCall :=
  if macos then [NCall.openglServerUnbindAndPublish self.ptr] else []

/-- `OpenGLServer::stop`: one native stop call; takes `&self`. -/
def OpenGLServer.stop (macos : Bool) (self : OpenGLServer) : List NCall :=
  if macos then [NCall.openglServerStop self.ptr] else []

/-- `Drop for OpenGLServer`: `self.stop()` then the native release. -/
def OpenGLServer.drop (macos : Bool) (self : OpenGLServer) : List NCall :=
  if macos then
    self.stop macos ++ [NCall.openglServerRelease self.ptr]
  else []

/-- `OpenGLClient::new`: boxes the callback when present, passes the native
creation call the descriptor pointer, the context and the callback
presence, and wraps a non-null result together with the callback storage.
There is no null check on the context. -/
def OpenGLClient.new (macos : Bool) (env : NativeEnv)
    (description : ServerDescription) (context : Ptr)
    (hasCallback : Bool) : Option OpenGLClient × List NCall :=
  if macos then
    let p := env.openglClientCreate description.ptr context hasCallback
    (nonNullMap p (fun q => ⟨q, hasCallback⟩),
     [NCall.openglClientCreate description.ptr context hasCallback])
  else
    (none, [])

/-- `OpenGLClient::is_valid`. -/
def OpenGLClient.is_valid (macos : Bool) (env : NativeEnv)
    (self : OpenGLClient) : Bool × List NCall :=
  if macos then
    (env.openglClientIsValid self.ptr, [NCall.openglClientIsValid self.ptr])
  else
    (false, [])

/-- `OpenGLClient::has_new_frame`. -/
def OpenGLClient.has_new_frame (macos : Bool) (env : NativeEnv)
    (self : OpenGLClient) : Bool × List NCall :=
  if macos then
    (env.openglClientHasNewFrame self.ptr,
     [NCall.openglClientHasNewFrame self.ptr])
  else
    (false, [])

/-- `OpenGLClient::new_frame_image`: wraps a non-null result. -/
def OpenGLClient.new_frame_image (macos : Bool) (env : NativeEnv)
    (self : OpenGLClient) : Option OpenGLImage × List NCall :=
  if macos then
    let p := env.openglClientNewFrameImage self.ptr
    (nonNullMap p (fun q => ⟨q⟩), [NCall.openglClientNewFrameImage self.ptr])
  else
    (none, [])

/-- `OpenGLClient::stop`: one native stop call; takes `&self`. -/
def OpenGLClient.stop (macos : Bool) (self : OpenGLClient) : List NCall :=
  if macos then [NCall.openglClientStop self.ptr] else []

/-- `Drop for OpenGLClient`: `self.stop()` then the native release; the
boxed callback storage field is dropped after the drop body. -/
def OpenGLClient.drop (macos : Bool) (self : OpenGLClient) : List NCall :=
  if macos then
    self.stop macos ++ [NCall.openglClientRelease self.ptr]
  else []

/-- `MetalServer::new`: returns `none` immediately (no native call) on a
null device; otherwise builds the name pointer, calls native creation and
wraps a non-null result. -/
def MetalServer.new (macos : Bool) (env : NativeEnv)
    (name : Option RStr) (device : Ptr) :
    Option MetalServer × List NCall :=
  if macos then
    if device = 0 then (none, [])
    else
      let namePtr := namePtrOf name
      let p := env.metalServerCreate namePtr device
      (nonNullMap p (fun q => ⟨q⟩), [NCall.metalServerCreate namePtr device])
  else
    (none, [])

/-- `MetalServer::has_clients`. -/
def MetalServer.has_clients (macos : Bool) (env : NativeEnv)
    (self : MetalServer) : Bool × List NCall :=
  if macos then
    (env.metalServerHasClients self.ptr,
     [NCall.metalServerHasClients self.ptr])
  else
    (false, [])

/-- `MetalServer::server_description`: wraps a non-null result as owned. -/
def MetalServer.server_description (macos : Bool) (env : NativeEnv)
    (self : MetalServer) : Option ServerDescription × List NCall :=
  if macos then
    let p := env.metalServerServerDescription self.ptr
    (nonNullMap p (fun q => ⟨q, true⟩),
     [NCall.metalServerServerDescription self.ptr])
  else
    (none, [])

/-- `MetalServer::publish_frame`: performs the native publish call only when
both the texture and the command buffer are non-null; otherwise it is a
silent no-op. -/
def MetalServer.publish_frame (macos : Bool) (self : MetalServer)
    (texture : Ptr) (commandBuffer : Ptr) (x y w h : F64)
    (flipped : Bool) : List NCall :=
  if macos then
    if texture ≠ 0 ∧ commandBuffer ≠ 0 then
      [NCall.metalServerPublishFrame self.ptr texture commandBuffer
        x y w h flipped]
    else []
  else []

/-- `MetalServer::new_frame_image`: wraps a non-null result. -/
def MetalServer.new_frame_image (macos : Bool) (env : NativeEnv)
    (self : MetalServer) : Option MetalTexture × List NCall :=
  if macos then
    let p := env.metalServerNewFrameImage self.ptr
    (nonNullMap p (fun q => ⟨q⟩), [NCall.metalServerNewFrameImage self.ptr])
  else
    (none, [])

/-- `MetalServer::stop`: one native stop call; takes `&self`. -/
def MetalServer.stop (macos : Bool) (self : MetalServer) : List NCall :=
  if macos then [NCall.metalServerStop self.ptr] else []

/-- `Drop for MetalServer`: `self.stop()` then the native release. -/
def MetalServer.drop (macos : Bool) (self : MetalServer) : List NCall :=
  if macos then
    self.stop macos ++ [NCall.metalServerRelease self.ptr]
  else []

/-- `MetalClient::new`: returns `none` immediately (no native call) on a
null device; otherwise boxes the callback when present, calls native
creation and wraps a non-null result with the callback storage. -/
def MetalClient.new (macos : Bool) (env : NativeEnv)
    (description : ServerDescription) (device : Ptr)
    (hasCallback : Bool) : Option MetalClient × List NCall :=
  if macos then
    if device = 0 then (none, [])
    else
      let p := env.metalClientCreate description.ptr device hasCallback
      (nonNullMap p (fun q => ⟨q, hasCallback⟩),
       [NCall.metalClientCreate description.ptr device hasCallback])
  else
    (none, [])

/-- `MetalClient::is_valid`. -/
def MetalClient.is_valid (macos : Bool) (env : NativeEnv)
    (self : MetalClient) : Bool × List NCall :=
  if macos then
    (env.metalClientIsValid self.ptr, [NCall.metalClientIsValid self.ptr])
  else
    (false, [])

/-- `MetalClient::has_new_frame`. -/
def MetalClient.has_new_frame (macos : Bool) (env : NativeEnv)
    (self : MetalClient) : Bool × List NCall :=
  if macos then
    (env.metalClientHasNewFrame self.ptr,
     [NCall.metalClientHasNewFrame self.ptr])
  else
    (false, [])

/-- `MetalClient::new_frame_image`: wraps a non-null result. -/
def MetalClient.new_frame_image (macos : Bool) (env : NativeEnv)
    (self : MetalClient) : Option MetalTexture × List NCall :=
  if macos then
    let p := env.metalClientNewFrameImage self.ptr
    (nonNullMap p (fun q => ⟨q⟩), [NCall.metalClientNewFrameImage self.ptr])
  else
    (none, [])

/-- `MetalClient::stop`: one native stop call; takes `&self`. -/
def MetalClient.stop (macos : Bool) (self : MetalClient) : List NCall :=
  if macos then [NCall.metalClientStop self.ptr] else []

/-- `Drop for MetalClient`: `self.stop()` then the native release; the
boxed callback storage field is dropped after the drop body. -/
def MetalClient.drop (macos : Bool) (self : MetalClient) : List NCall :=
  if macos then
    self.stop macos ++ [NCall.metalClientRelease self.ptr]
  else []

/-!
Reference-count event model for `ServerDescription`. A single wrapper
object's lifetime, on macOS, is: an origin (how the wrapper was produced),
then a sequence of method calls chosen by the caller, then the automatic
drop. Each step emits retain/release/dereference events on the wrapped
native pointer, exactly as the corresponding method bodies do.
-/

/-- One native-side reference event on a descriptor pointer. -/
inductive REvent
  | retain (p : Ptr)
  | release (p : Ptr)
  | deref (p : Ptr)
deriving DecidableEq

/-- A caller-chosen method call on a live `ServerDescription`. -/
inductive DescOp
  | readUuid
  | readName
  | readAppName
  | retainOp
  | releaseOp
deriving DecidableEq

/-- Events emitted by one method call on a descriptor wrapping `p`:
the string getters pass `p` to a native copy call (a dereference), and
`retain`/`release` pass `p` to the native retain/release. -/
def descOpEvents (p : Ptr) : DescOp → List REvent
  | DescOp.readUuid => [REvent.deref p]
  | DescOp.readName => [REvent.deref p]
  | DescOp.readAppName => [REvent.deref p]
  | DescOp.retainOp => [REvent.retain p]
  | DescOp.releaseOp => [REvent.release p]

/-- How a `ServerDescription` wrapper came into existence. -/
inductive DescOrigin
  | borrowed
  | ownedCreation
  | cloned
deriving DecidableEq

/-- Events emitted at the wrapper's creation: `server_at_index` emits none
(not retained); `server_description` emits none in this layer (the native
call itself returns an already-retained copy); `clone` emits the retain
performed by `Clone for ServerDescription`. -/
def originEvents (p : Ptr) : DescOrigin → List REvent
  | DescOrigin.borrowed => []
  | DescOrigin.ownedCreation => []
  | DescOrigin.cloned => [REvent.retain p]

/-- The `owned` flag the wrapper carries for each origin. -/
def originOwned : DescOrigin → Bool
  | DescOrigin.borrowed => false
  | DescOrigin.ownedCreation => true
  | DescOrigin.cloned => true

/-- Releases owed on top of the wrapper-visible retains: a descriptor from
`server_description` arrives with one native-side retain already performed
by the native call. -/
def ownershipDebt : DescOrigin → Nat
  | DescOrigin.borrowed => 0
  | DescOrigin.ownedCreation => 1
  | DescOrigin.cloned => 0

/-- Full event trace of one wrapper's lifetime on macOS: origin events,
then the chosen method calls, then `Drop for ServerDescription` (a release
exactly when `owned`). -/
def descLifetime (p : Ptr) (o : DescOrigin) (ops : List DescOp) :
    List REvent :=
  originEvents p o ++ ops.flatMap (descOpEvents p) ++
    (if originOwned o then [REvent.release p] else [])

/-- Whether an event is a retain of `p`. -/
def REvent.isRetainOf (p : Ptr) : REvent → Bool
  | REvent.retain q => q == p
  | _ => false

/-- Whether an event is a release of `p`. -/
def REvent.isReleaseOf (p : Ptr) : REvent → Bool
  | REvent.release q => q == p
  | _ => false

/-- Whether an event passes `p` to any native call. -/
def REvent.touches (p : Ptr) : REvent → Bool
  | REvent.retain q => q == p
  | REvent.release q => q == p
  | REvent.deref q => q == p

/-- Number of retains of `p` in a trace. -/
def retainCount (p : Ptr) (t : List REvent) : Nat :=
  t.countP (REvent.isRetainOf p)

/-- Number of releases of `p` in a trace. -/
def releaseCount (p : Ptr) (t : List REvent) : Nat :=
  t.countP (REvent.isReleaseOf p)

/-- Whether no event of the trace passes `p` to a native call after some
earlier release of `p`. -/
def noUseAfterRelease (p : Ptr) : List REvent → Bool
  | [] => true
  | e :: rest =>
    (if e.isReleaseOf p then rest.all (fun x => !x.touches p) else true) &&
      noUseAfterRelease p rest

/-!
Native descriptor heap model for the clone claim: a reference count per
pointer; reading a field has a defined result exactly while the count is
positive. Retain and release move the count; dropping a wrapper releases
exactly when it is owned.
-/

/-- Reference counts of native descriptor records, by pointer. -/
structure DescHeap where
  count : Ptr → Nat

/-- Native retain: increment the count of `p`. -/
def DescHeap.retainAt (h : DescHeap) (p : Ptr) : DescHeap :=
  ⟨fun q => if q = p then h.count q + 1 else h.count q⟩

/-- Native release: decrement the count of `p`. -/
def DescHeap.releaseAt (h : DescHeap) (p : Ptr) : DescHeap :=
  ⟨fun q => if q = p then h.count q - 1 else h.count q⟩

/-- Heap effect of dropping a descriptor wrapper: release exactly when
owned, per `Drop for ServerDescription`. -/
def DescHeap.dropDesc (h : DescHeap) (d : ServerDescription) : DescHeap :=
  if d.owned then h.releaseAt d.ptr else h

/-- Heap effect of `Clone for ServerDescription`: the retain performed by
`clone`. -/
def DescHeap.cloneDesc (h : DescHeap) (d : ServerDescription) : DescHeap :=
  h.retainAt d.ptr

/-- Reading a string field of descriptor `p` through the native copy call:
defined (`some`) with the oracle's value while the record is live, and
undefined (`none`) once its count has reached zero. -/
def DescHeap.readField (h : DescHeap) (f : Ptr → Option String) (p : Ptr) :
    Option (Option String) :=
  if 0 < h.count p then some (f p) else none

/-!
Callback teardown model for the consumer claim. Events of one client's
callback registration: the native side may invoke the callback only while
it is registered; `stop` unregisters it. The drop bodies of
`OpenGLClient`/`MetalClient` run `stop`, then the native release, and Rust
drops the `_callback_storage` field after the drop body.
-/

/-- Events around one client's native callback registration. -/
inductive CbEvent
  | register
  | stopEv
  | releaseEv
  | dropStorage
  | invoke
deriving DecidableEq

/-- Registration state after one event: `create` registers the callback,
`stop` unregisters it. -/
def regStep (registered : Bool) : CbEvent → Bool
  | CbEvent.register => true
  | CbEvent.stopEv => false
  | _ => registered

/-- Modelled from the spec: the native side (glue code, not under src)
invokes the registered callback only between registration and `stop`;
`stop` unregisters the native callback. A trace respects this discipline
when every `invoke` happens while the callback is registered. -/
def cbDiscipline (registered : Bool) : List CbEvent → Bool
  | [] => true
  | e :: rest =>
    (if e = CbEvent.invoke then registered else true) &&
      cbDiscipline (regStep registered e) rest

/-- Teardown events of `Drop for OpenGLClient` and `Drop for MetalClient`:
`self.stop()`, then the native client release, then the field drop of the
boxed callback storage. -/
def clientDropEvents : List CbEvent :=
  [CbEvent.stopEv, CbEvent.releaseEv, CbEvent.dropStorage]

/-- Teardown events of `Drop for OpenGLServer` and `Drop for MetalServer`:
`self.stop()`, then the native server release. -/
def serverDropEvents : List CbEvent :=
  [CbEvent.stopEv, CbEvent.releaseEv]

/-!
Native producer/consumer run state for the stop claim.
-/

/-- Modelled from the spec: the observable native state of one
producer/consumer object — whether it is publishing/subscribed and how many
consumers are attached. The glue code implementing native stop is not under
src; per the spec, `stop` terminates publishing and detaches all
consumers. -/
structure NativeRunState where
  running : Bool
  attachedClients : Nat
deriving DecidableEq

/-- Modelled from the spec: the native stop operation terminates publishing
and detaches all consumers. -/
def stopNative (_s : NativeRunState) : NativeRunState :=
  { running := false, attachedClients := 0 }

/-- A concrete native oracle used to instantiate theorems with hypotheses:
two directory entries, creation calls that fail exactly on a null context or
device, and constant query results. -/
def envC : NativeEnv where
  serverDirectoryShared := 1
  serverDirectoryServersCount := fun _ => 2
  serverDirectoryServerAtIndex := fun _ i => i + 1
  serverDescriptionCopyUuid := fun _ => some "u"
  serverDescriptionCopyName := fun _ => some "n"
  serverDescriptionCopyAppName := fun _ => some "a"
  openglServerCreate := fun _ c => if c = 0 then 0 else 5
  openglServerHasClients := fun _ => false
  openglServerServerDescription := fun _ => 9
  openglServerBindToDrawFrame := fun _ _ _ => true
  openglClientCreate := fun _ c _ => if c = 0 then 0 else 6
  openglClientIsValid := fun _ => true
  openglClientHasNewFrame := fun _ => false
  openglClientNewFrameImage := fun _ => 3
  metalServerCreate := fun _ d => if d = 0 then 0 else 7
  metalServerHasClients := fun _ => false
  metalServerServerDescription := fun _ => 9
  metalServerNewFrameImage := fun _ => 4
  metalClientCreate := fun _ d _ => if d = 0 then 0 else 8
  metalClientIsValid := fun _ => true
  metalClientHasNewFrame := fun _ => false
  metalClientNewFrameImage := fun _ => 4

/-- Helper: a `filterMap` whose function is `some` on every element of the
list keeps the length of the list. -/
theorem length_filterMap_of_isSome {α β : Type} (g : α → Option β) :
    ∀ l : List α, (∀ a ∈ l, (g a).isSome) →
      (l.filterMap g).length = l.length := by
  intro l hl
  induction l with
  | nil => rfl
  | cons a t ih =>
    have ha : (g a).isSome := hl a (List.mem_cons_self a t)
    obtain ⟨b, hb⟩ := Option.isSome_iff_exists.mp ha
    rw [List.filterMap_cons, hb]
    simp only [List.length_cons]
    rw [ih (fun x hx => hl x (List.mem_cons_of_mem a hx))]

/-- C1: with the native service unavailable (the non-macOS branch of every
operation), the shared directory accessor returns none, the count is 0,
index and snapshot queries return none and the empty list, every
constructor (producers, consumers, frame images) returns none, every
boolean query returns false, every string query returns none, and the void
operations are no-ops — and every one of these operations performs zero
native calls. -/
theorem spec_C1 (env : NativeEnv) (d : ServerDirectory)
    (desc : ServerDescription) (gs : OpenGLServer) (gc : OpenGLClient)
    (ms : MetalServer) (mc : MetalClient) (name : Option RStr)
    (ctx device tex cb : Ptr) (hasCb flipped : Bool)
    (i texId target : Nat) (x y w h tw th : F64) :
    ServerDirectory.shared false env = (none, []) ∧
    d.servers_count false env = (0, []) ∧
    d.server_at_index false env i = (none, []) ∧
    d.servers false env = ([], []) ∧
    OpenGLServer.new false env name ctx = (none, []) ∧
    MetalServer.new false env name device = (none, []) ∧
    OpenGLClient.new false env desc ctx hasCb = (none, []) ∧
    MetalClient.new false env desc device hasCb = (none, []) ∧
    gc.new_frame_image false env = (none, []) ∧
    ms.new_frame_image false env = (none, []) ∧
    mc.new_frame_image false env = (none, []) ∧
    gs.has_clients false env = (false, []) ∧
    ms.has_clients false env = (false, []) ∧
    gc.is_valid false env = (false, []) ∧
    mc.is_valid false env = (false, []) ∧
    gc.has_new_frame false env = (false, []) ∧
    mc.has_new_frame false env = (false, []) ∧
    gs.bind_to_draw_frame false env w h = (false, []) ∧
    desc.uuid false env = (none, []) ∧
    desc.name false env = (none, []) ∧
    desc.app_name false env = (none, []) ∧
    gs.publish_frame false texId target x y w h tw th flipped = [] ∧
    ms.publish_frame false tex cb x y w h flipped = [] ∧
    gs.stop false = [] ∧
    gc.stop false = [] ∧
    ms.stop false = [] ∧
    mc.stop false = [] := by
  and_intros <;> rfl

/-- C2: the value of `servers()` is exactly the filtered results of
querying `server_at_index(i)` for `i` in `0..servers_count()`, and when
every index below the count answers (the snapshot instant), its length
equals the count. -/
theorem spec_C2 (macos : Bool) (env : NativeEnv) (d : ServerDirectory) :
    (d.servers macos env).1 =
      (List.range (d.servers_count macos env).1).filterMap
        (fun i => (d.server_at_index macos env i).1) ∧
    ((∀ i < (d.servers_count macos env).1,
        (d.server_at_index macos env i).1.isSome) →
      (d.servers macos env).1.length = (d.servers_count macos env).1) := by
  constructor
  · simp [ServerDirectory.servers, List.filterMap_map]
    rfl
  · intro hall
    show ((List.map _ (List.range _)).filterMap Prod.fst).length = _
    rw [List.filterMap_map]
    refine Eq.trans (length_filterMap_of_isSome _ _ ?_) (List.length_range _)
    intro i hi
    exact hall i (List.mem_range.mp hi)

/-- Witness for C2: with the concrete oracle `envC` (count 2, every index
answering), the snapshot length equals the count. -/
theorem spec_C2_witness :
    (ServerDirectory.servers true envC ⟨1⟩).1.length =
      (ServerDirectory.servers_count true envC ⟨1⟩).1 :=
  (spec_C2 true envC ⟨1⟩).2 (by decide)

/-- C3: under the spec-modelled native creation behavior for the missing
glue code (creation with a null GPU context returns a null handle, spec
section 7 construction failure), both producer constructors return none
when the context/device is null or when native creation returns null, and
a constructed wrapper always holds a non-null handle. `MetalServer::new`
needs no native modelling: it checks the device for null itself. -/
theorem spec_C3 (env : NativeEnv) (name : Option RStr)
    (hnull : ∀ np : Option RStr, env.openglServerCreate np 0 = 0) :
    (∀ ctx, (ctx = 0 ∨ env.openglServerCreate (namePtrOf name) ctx = 0) →
      (OpenGLServer.new true env name ctx).1 = none) ∧
    (∀ device,
      (device = 0 ∨ env.metalServerCreate (namePtrOf name) device = 0) →
      (MetalServer.new true env name device).1 = none) ∧
    (∀ ctx s, (OpenGLServer.new true env name ctx).1 = some s →
      s.ptr ≠ 0) ∧
    (∀ device s, (MetalServer.new true env name device).1 = some s →
      s.ptr ≠ 0) := by
  refine ⟨?_, ?_, ?_, ?_⟩
  · intro ctx hc
    rcases hc with hc | hc
    · subst hc
      simp [OpenGLServer.new, nonNullMap, hnull (namePtrOf name)]
    · simp [OpenGLServer.new, nonNullMap, hc]
  · intro device hd
    rcases hd with hd | hd
    · subst hd
      simp [MetalServer.new]
    · by_cases hz : device = 0
      · simp [MetalServer.new, hz]
      · simp [MetalServer.new, hz, nonNullMap, hd]
  · intro ctx s hs
    by_cases hz : env.openglServerCreate (namePtrOf name) ctx = 0
    · simp [OpenGLServer.new, nonNullMap, hz] at hs
    · simp [OpenGLServer.new, nonNullMap, hz] at hs
      subst hs
      simpa using hz
  · intro device s hs
    by_cases hdz : device = 0
    · simp [MetalServer.new, hdz] at hs
    · by_cases hz : env.metalServerCreate (namePtrOf name) device = 0
      · simp [MetalServer.new, hdz, nonNullMap, hz] at hs
      · simp [MetalServer.new, hdz, nonNullMap, hz] at hs
        subst hs
        simpa using hz

/-- Witness for C3: with `envC`, whose creation calls fail on a null
context or device, both constructors return none on a null argument. -/
theorem spec_C3_witness :
    (OpenGLServer.new true envC none 0).1 = none ∧
    (MetalServer.new true envC none 0).1 = none :=
  ⟨(spec_C3 envC none (fun _ => rfl)).1 0 (Or.inl rfl),
   (spec_C3 envC none (fun _ => rfl)).2.1 0 (Or.inl rfl)⟩

/-- C8: the Metal publish operation performs no native call exactly when
the texture or the command buffer is null, and performs exactly the one
native publish call when both are non-null. -/
theorem spec_C8 (s : MetalServer) (tex cb : Ptr) (x y w h : F64)
    (flipped : Bool) :
    (s.publish_frame true tex cb x y w h flipped = [] ↔
      tex = 0 ∨ cb = 0) ∧
    (tex ≠ 0 → cb ≠ 0 →
      s.publish_frame true tex cb x y w h flipped =
        [NCall.metalServerPublishFrame s.ptr tex cb x y w h flipped]) := by
  constructor
  · by_cases ht : tex = 0
    · simp [MetalServer.publish_frame, ht]
    · by_cases hc : cb = 0
      · simp [MetalServer.publish_frame, ht, hc]
      · simp [MetalServer.publish_frame, ht, hc]
  · intro ht hc
    simp [MetalServer.publish_frame, ht, hc]

/-- Witness for C8: with non-null texture and command buffer, exactly the
native publish call is emitted. -/
theorem spec_C8_witness :
    (MetalServer.publish_frame true ⟨1⟩ 2 3 ⟨0⟩ ⟨0⟩ ⟨0⟩ ⟨0⟩ false) =
      [NCall.metalServerPublishFrame 1 2 3 ⟨0⟩ ⟨0⟩ ⟨0⟩ ⟨0⟩ false] :=
  (spec_C8 ⟨1⟩ 2 3 ⟨0⟩ ⟨0⟩ ⟨0⟩ ⟨0⟩ false).2 (by decide) (by decide)

/-- C9: each wrapper `stop` always issues the same single native stop
request for its handle, and the spec-modelled native stop operation is
idempotent, so any number of repeated `stop()` calls after the first
changes nothing. -/
theorem spec_C9 :
    (∀ gs : OpenGLServer,
      OpenGLServer.stop true gs = [NCall.openglServerStop gs.ptr]) ∧
    (∀ gc : OpenGLClient,
      OpenGLClient.stop true gc = [NCall.openglClientStop gc.ptr]) ∧
    (∀ ms : MetalServer,
      MetalServer.stop true ms = [NCall.metalServerStop ms.ptr]) ∧
    (∀ mc : MetalClient,
      MetalClient.stop true mc = [NCall.metalClientStop mc.ptr]) ∧
    (∀ s : NativeRunState, stopNative (stopNative s) = stopNative s) ∧
    (∀ (n : Nat) (s : NativeRunState),
      stopNative^[n + 1] s = stopNative s) := by
  have hiter : ∀ (n : Nat) (s : NativeRunState),
      stopNative^[n] (stopNative s) = stopNative s := by
    intro n
    induction n with
    | zero => intro s; rfl
    | succ m ih =>
      intro s
      rw [Function.iterate_succ_apply]
      exact ih (stopNative s)
  refine ⟨fun _ => rfl, fun _ => rfl, fun _ => rfl, fun _ => rfl,
    fun _ => rfl, fun n s => ?_⟩
  rw [Function.iterate_succ_apply]
  exact hiter n s

/-- C10: a name with an interior NUL byte makes the C-string conversion
fail, so a null name pointer is passed: each server constructor behaves
exactly as with an absent name (same result, same native calls). -/
theorem spec_C10 (env : NativeEnv) (s : RStr) (ctx device : Ptr)
    (hnul : 0 ∈ s) :
    namePtrOf (some s) = none ∧
    OpenGLServer.new true env (some s) ctx =
      OpenGLServer.new true env none ctx ∧
    MetalServer.new true env (some s) device =
      MetalServer.new true env none device := by
  have hc : cStringNew s = none := by
    simp [cStringNew, hnul]
  have hname : namePtrOf (some s) = none := by
    simp [namePtrOf, hc]
  refine ⟨hname, ?_, ?_⟩
  · simp [OpenGLServer.new, namePtrOf, hc]
  · simp [MetalServer.new, namePtrOf, hc]

/-- Witness for C10: the name consisting of a single NUL byte behaves as
the absent name in the OpenGL constructor. -/
theorem spec_C10_witness :
    OpenGLServer.new true envC (some [0]) 1 =
      OpenGLServer.new true envC none 1 :=
  (spec_C10 envC [0] 1 1 (by decide)).2.1

/-- Helper: releases of `p` emitted by one method call, by case on the
method. -/
theorem countP_release_descOpEvents (p : Ptr) (op : DescOp) :
    (descOpEvents p op).countP (REvent.isReleaseOf p) =
      if op = DescOp.releaseOp then 1 else 0 := by
  cases op <;> simp [descOpEvents, REvent.isReleaseOf]

/-- Helper: retains of `p` emitted by one method call, by case on the
method. -/
theorem countP_retain_descOpEvents (p : Ptr) (op : DescOp) :
    (descOpEvents p op).countP (REvent.isRetainOf p) =
      if op = DescOp.retainOp then 1 else 0 := by
  cases op <;> simp [descOpEvents, REvent.isRetainOf]

/-- Helper: releases of `p` over a whole method-call sequence. -/
theorem countP_release_flatMap (p : Ptr) (ops : List DescOp) :
    (ops.flatMap (descOpEvents p)).countP (REvent.isReleaseOf p) =
      ops.count DescOp.releaseOp := by
  induction ops with
  | nil => rfl
  | cons op t ih =>
    rw [List.flatMap_cons, List.countP_append, countP_release_descOpEvents,
      ih, List.count_cons]
    by_cases h : op = DescOp.releaseOp
    · simp [h]
      omega
    · simp [h]

/-- Helper: retains of `p` over a whole method-call sequence. -/
theorem countP_retain_flatMap (p : Ptr) (ops : List DescOp) :
    (ops.flatMap (descOpEvents p)).countP (REvent.isRetainOf p) =
      ops.count DescOp.retainOp := by
  induction ops with
  | nil => rfl
  | cons op t ih =>
    rw [List.flatMap_cons, List.countP_append, countP_retain_descOpEvents,
      ih, List.count_cons]
    by_cases h : op = DescOp.retainOp
    · simp [h]
      omega
    · simp [h]

/-- Helper: total releases of `p` over a wrapper lifetime: the manual
releases plus the drop release when the wrapper is owned. -/
theorem releaseCount_lifetime (p : Ptr) (o : DescOrigin)
    (ops : List DescOp) :
    releaseCount p (descLifetime p o ops) =
      ops.count DescOp.releaseOp + (if originOwned o then 1 else 0) := by
  cases o <;>
    simp [releaseCount, descLifetime, originEvents, originOwned,
      List.countP_append, countP_release_flatMap, REvent.isReleaseOf]

/-- Helper: total retains of `p` over a wrapper lifetime: the manual
retains plus the clone retain when the wrapper is a clone. -/
theorem retainCount_lifetime (p : Ptr) (o : DescOrigin)
    (ops : List DescOp) :
    retainCount p (descLifetime p o ops) =
      ops.count DescOp.retainOp +
        (if o = DescOrigin.cloned then 1 else 0) := by
  cases o <;>
    simp [retainCount, descLifetime, originEvents, originOwned,
      List.countP_append, countP_retain_flatMap, REvent.isRetainOf]

/-- C4 counterexample: a cloned descriptor on which the caller invokes one
manual `release()` sees two releases (the manual one and the drop one)
against a single retain, so the claimed balance fails for that sequence of
operations. -/
theorem spec_C4_counterexample :
    ¬ (releaseCount 1 (descLifetime 1 DescOrigin.cloned [DescOp.releaseOp]) =
        retainCount 1 (descLifetime 1 DescOrigin.cloned [DescOp.releaseOp]) +
          ownershipDebt DescOrigin.cloned) := by
  decide

/-- C4 amended: over any wrapper lifetime in which manual `release()` calls
are matched one-to-one by manual `retain()` calls (in particular when there
are none), the releases balance the retains plus the one pre-retained
reference of a `server_description` result: a clone emits exactly one
retain and its drop exactly one release, an owned descriptor is released
exactly once on drop, and a borrowed descriptor's drop releases nothing. -/
theorem spec_C4_amended (p : Ptr) (o : DescOrigin) (ops : List DescOp)
    (hbal : ops.count DescOp.retainOp = ops.count DescOp.releaseOp) :
    releaseCount p (descLifetime p o ops) =
      retainCount p (descLifetime p o ops) + ownershipDebt o := by
  rw [releaseCount_lifetime, retainCount_lifetime, ← hbal]
  cases o <;> simp [originOwned, ownershipDebt]

/-- Witness for the amended C4: a clone with one matched manual
retain/release pair balances (two retains, two releases, no debt). -/
theorem spec_C4_witness :
    releaseCount 1
        (descLifetime 1 DescOrigin.cloned [DescOp.retainOp, DescOp.releaseOp]) =
      retainCount 1
          (descLifetime 1 DescOrigin.cloned
            [DescOp.retainOp, DescOp.releaseOp]) +
        ownershipDebt DescOrigin.cloned :=
  spec_C4_amended 1 DescOrigin.cloned [DescOp.retainOp, DescOp.releaseOp]
    (by decide)

/-- Helper: events of a lifetime before the drop contain no release of `p`
when the caller performs no manual `release()`. -/
theorem lifetime_prefix_no_release (p : Ptr) (o : DescOrigin)
    (ops : List DescOp) (hno : DescOp.releaseOp ∉ ops) :
    ∀ e ∈ originEvents p o ++ ops.flatMap (descOpEvents p),
      e.isReleaseOf p = false := by
  intro e he
  rcases List.mem_append.mp he with h | h
  · cases o <;> simp [originEvents] at h
    subst h
    rfl
  · rcases List.mem_flatMap.mp h with ⟨op, hop, hee⟩
    cases op with
    | readUuid => simp [descOpEvents] at hee; subst hee; rfl
    | readName => simp [descOpEvents] at hee; subst hee; rfl
    | readAppName => simp [descOpEvents] at hee; subst hee; rfl
    | retainOp => simp [descOpEvents] at hee; subst hee; rfl
    | releaseOp => exact absurd hop hno

/-- Helper: a trace without releases of `p`, optionally followed by one
final release of `p`, never uses `p` after a release of `p`. -/
theorem noUseAfterRelease_of_prefix (p : Ptr) :
    ∀ l : List REvent, (∀ e ∈ l, e.isReleaseOf p = false) →
      noUseAfterRelease p (l ++ [REvent.release p]) = true ∧
        noUseAfterRelease p l = true := by
  intro l hl
  induction l with
  | nil => constructor <;> simp [noUseAfterRelease]
  | cons e t ih =>
    have he : e.isReleaseOf p = false :=
      hl e (List.mem_cons_self e t)
    have iht := ih (fun x hx => hl x (List.mem_cons_of_mem e hx))
    constructor
    · rw [List.cons_append]
      simp only [noUseAfterRelease, he, if_false, Bool.true_and]
      exact iht.1
    · simp only [noUseAfterRelease, he, if_false, Bool.true_and]
      exact iht.2

/-- C5 counterexample: `release()` takes a shared reference and does not
consume the descriptor, so an owned descriptor that is manually released
and then queried dereferences the released handle (and its drop releases
it again): the lifetime trace uses the pointer after a release. -/
theorem spec_C5_counterexample :
    noUseAfterRelease 1
      (descLifetime 1 DescOrigin.ownedCreation
        [DescOp.releaseOp, DescOp.readUuid]) = false := by
  decide

/-- C5 amended: after the automatic drop release nothing further can touch
the handle (the drop release is the last event of the lifetime), and in any
lifetime without manual `release()` calls no event ever uses the pointer
after a release of it; manual `release()`, however, does not consume the
descriptor, so later operations can still dereference the handle. -/
theorem spec_C5_amended (p : Ptr) (o : DescOrigin) (ops : List DescOp)
    (hno : DescOp.releaseOp ∉ ops) :
    noUseAfterRelease p (descLifetime p o ops) = true := by
  have hmain := noUseAfterRelease_of_prefix p
    (originEvents p o ++ ops.flatMap (descOpEvents p))
    (lifetime_prefix_no_release p o ops hno)
  unfold descLifetime
  cases hoo : originOwned o
  · rw [if_neg (by simp [hoo]), List.append_nil]
    exact hmain.2
  · rw [if_pos (by simp [hoo])]
    exact hmain.1

/-- Witness for the amended C5: a clone that is queried and manually
retained, then dropped, never uses the handle after a release. -/
theorem spec_C5_witness :
    noUseAfterRelease 1
      (descLifetime 1 DescOrigin.cloned
        [DescOp.readUuid, DescOp.retainOp]) = true :=
  spec_C5_amended 1 DescOrigin.cloned [DescOp.readUuid, DescOp.retainOp]
    (by decide)

/-- Helper: callback discipline restricted to a suffix, with the
registration state folded over the prefix. -/
theorem cbDiscipline_append (r : Bool) (xs : List CbEvent) :
    ∀ (ys : List CbEvent), cbDiscipline r (xs ++ ys) = true →
      cbDiscipline (xs.foldl regStep r) ys = true := by
  induction xs generalizing r with
  | nil => intro ys h; exact h
  | cons e t ih =>
    intro ys h
    rw [List.cons_append] at h
    simp only [cbDiscipline, Bool.and_eq_true] at h
    exact ih (regStep r e) ys h.2

/-- Helper: once unregistered, a disciplined trace without a new
registration contains no callback invocation. -/
theorem cbDiscipline_no_invoke :
    ∀ ys : List CbEvent, cbDiscipline false ys = true →
      CbEvent.register ∉ ys → CbEvent.invoke ∉ ys := by
  intro ys
  induction ys with
  | nil => intro _ _ h; exact absurd h (List.not_mem_nil _)
  | cons e t ih =>
    intro h hreg
    simp only [cbDiscipline, Bool.and_eq_true] at h
    obtain ⟨h1, h2⟩ := h
    have hereg : e ≠ CbEvent.register := by
      intro hcontra
      exact hreg (hcontra ▸ List.mem_cons_self e t)
    have hstep : regStep false e = false := by
      cases e <;> first | rfl | exact absurd rfl hereg
    rw [hstep] at h2
    have hte := ih h2 (fun hm => hreg (List.mem_cons_of_mem e hm))
    intro hmem
    rcases List.mem_cons.mp hmem with he | hm
    · rw [← he] at h1
      simp at h1
    · exact hte hm

/-- C6: the drop bodies of the two clients run `stop`, then the native
release, and the boxed callback storage is dropped last; the servers run
`stop` then the native release. Under the spec-modelled native callback
discipline (callbacks fire only while registered; `stop` unregisters), no
callback invocation occurs anywhere after the destructor's stop — in
particular not during the release, the storage drop, or afterwards, as
long as no new registration happens. -/
theorem spec_C6 :
    clientDropEvents =
      [CbEvent.stopEv, CbEvent.releaseEv, CbEvent.dropStorage] ∧
    serverDropEvents = [CbEvent.stopEv, CbEvent.releaseEv] ∧
    OpenGLClient.drop true ⟨7, true⟩ =
      [NCall.openglClientStop 7, NCall.openglClientRelease 7] ∧
    MetalClient.drop true ⟨7, true⟩ =
      [NCall.metalClientStop 7, NCall.metalClientRelease 7] ∧
    (∀ pre post : List CbEvent,
      cbDiscipline false (pre ++ clientDropEvents ++ post) = true →
      CbEvent.register ∉ post →
      CbEvent.invoke ∉ [CbEvent.releaseEv, CbEvent.dropStorage] ++ post) := by
  refine ⟨rfl, rfl, rfl, rfl, ?_⟩
  intro pre post hdisc hreg
  have hsplit : pre ++ clientDropEvents ++ post =
      (pre ++ [CbEvent.stopEv]) ++
        ([CbEvent.releaseEv, CbEvent.dropStorage] ++ post) := by
    simp [clientDropEvents]
  rw [hsplit] at hdisc
  have h2 := cbDiscipline_append false (pre ++ [CbEvent.stopEv]) _ hdisc
  have hfold : (pre ++ [CbEvent.stopEv]).foldl regStep false = false := by
    rw [List.foldl_append]
    rfl
  rw [hfold] at h2
  refine cbDiscipline_no_invoke _ h2 ?_
  intro hm
  rcases List.mem_append.mp hm with h | h
  · simp at h
  · exact hreg h

/-- Witness for C6: a disciplined trace (registration, one invocation,
then the client teardown, then one more native release event) has no
invocation after the destructor's stop. -/
theorem spec_C6_witness :
    CbEvent.invoke ∉
      [CbEvent.releaseEv, CbEvent.dropStorage] ++ [CbEvent.releaseEv] :=
  spec_C6.2.2.2.2 [CbEvent.register, CbEvent.invoke] [CbEvent.releaseEv]
    (by decide) (by decide)

/-- C7: cloning retains and marks the result owned on the same pointer, so
the clone's three string fields agree with the source's at the moment of
cloning; and because the clone holds its own reference, the fields remain
readable — with the same values — after the source wrapper is dropped. -/
theorem spec_C7 (env : NativeEnv) (h : DescHeap) (d : ServerDescription)
    (hlive : 0 < h.count d.ptr) :
    ((ServerDescription.clone true d).1).owned = true ∧
    ((ServerDescription.clone true d).1).ptr = d.ptr ∧
    (ServerDescription.clone true d).2 =
      [NCall.serverDescriptionRetain d.ptr] ∧
    (h.cloneDesc d).readField env.serverDescriptionCopyUuid
        ((ServerDescription.clone true d).1).ptr =
      (h.cloneDesc d).readField env.serverDescriptionCopyUuid d.ptr ∧
    (h.cloneDesc d).readField env.serverDescriptionCopyName
        ((ServerDescription.clone true d).1).ptr =
      (h.cloneDesc d).readField env.serverDescriptionCopyName d.ptr ∧
    (h.cloneDesc d).readField env.serverDescriptionCopyAppName
        ((ServerDescription.clone true d).1).ptr =
      (h.cloneDesc d).readField env.serverDescriptionCopyAppName d.ptr ∧
    ((h.cloneDesc d).dropDesc d).readField env.serverDescriptionCopyUuid
        ((ServerDescription.clone true d).1).ptr =
      some (env.serverDescriptionCopyUuid d.ptr) ∧
    ((h.cloneDesc d).dropDesc d).readField env.serverDescriptionCopyName
        ((ServerDescription.clone true d).1).ptr =
      some (env.serverDescriptionCopyName d.ptr) ∧
    ((h.cloneDesc d).dropDesc d).readField env.serverDescriptionCopyAppName
        ((ServerDescription.clone true d).1).ptr =
      some (env.serverDescriptionCopyAppName d.ptr) := by
  have hc1 : (h.cloneDesc d).count d.ptr = h.count d.ptr + 1 := by
    simp [DescHeap.cloneDesc, DescHeap.retainAt]
  have hcount : 0 < ((h.cloneDesc d).dropDesc d).count d.ptr := by
    by_cases ho : d.owned
    · simp only [DescHeap.dropDesc, ho, if_pos, DescHeap.releaseAt]
      simp only [if_pos rfl, hc1]
      omega
    · simp only [DescHeap.dropDesc, ho, Bool.false_eq_true, if_false]
      omega
  refine ⟨rfl, rfl, rfl, rfl, rfl, rfl, ?_, ?_, ?_⟩ <;>
    simp [DescHeap.readField, ServerDescription.clone, hcount]

/-- Witness for C7: a live descriptor with one outstanding reference,
cloned and then dropped, leaves the clone's uuid readable with the value
from the moment of cloning. -/
theorem spec_C7_witness :
    ((DescHeap.cloneDesc ⟨fun _ => 1⟩ ⟨2, true⟩).dropDesc ⟨2, true⟩).readField
        envC.serverDescriptionCopyUuid
        ((ServerDescription.clone true ⟨2, true⟩).1).ptr =
      some (envC.serverDescriptionCopyUuid 2) :=
  (spec_C7 envC ⟨fun _ => 1⟩ ⟨2, true⟩ (by decide)).2.2.2.2.2.2.1

end RustySyphon
